import Mathlib

/-!
# A model of `tscns.h` (TSCNS: tsc-based nanosecond clock)

Shallow embedding of the template class `TSCNS` from `src/tscns.h`.

Modelling conventions:
* `int64_t` is modelled as `ℤ` (no claim under consideration depends on
  64-bit wraparound of tick or nanosecond arithmetic);
* the `uint32_t` sequence counter is modelled as `ℕ` with arithmetic
  taken modulo `2 ^ 32`, since wraparound of the counter is observable;
* `double` is modelled as `ℚ`: the claims under study concern the exact
  arithmetic structure of the conversion and calibration formulas, not
  IEEE-754 rounding;
* the `static_cast<int64_t>` of a `double` truncates toward zero, which
  on `ℚ` is floor for nonnegative arguments and ceiling for negative ones;
* nondeterministic inputs (the tsc register read by `rdtsc` and the wall
  clock read by `rdsysns`, and hence the sample arrays filled by
  `syncTime`) are passed to the modelled functions as explicit arguments.
-/

/-- `static_cast<int64_t>(d)` for a C++ `double` `d`: truncation toward
zero (floor of a nonnegative value, ceiling of a negative one). -/
def truncQ (q : ℚ) : ℤ := if 0 ≤ q then ⌊q⌋ else ⌈q⌉

/-- One `++` on the `uint32_t` sequence counter. -/
def u32succ (x : ℕ) : ℕ := (x + 1) % 2 ^ 32

/-- The data members of `TSCNS` (tscns.h lines 59–67).  `param_seq_` is the
seqlock sequence counter; the remaining fields are the clock parameter
snapshot. -/
structure TSCNS where
  param_seq_ : ℕ
  ns_per_tsc_ : ℚ
  base_tsc_ : ℤ
  base_ns_ : ℤ
  calibrate_interval_ns_ : ℤ
  base_ns_err_ : ℤ
  next_calibrate_tsc_ : ℤ

/-- The conversion expression computed inside the reader loop of `tsc2ns`
(tscns.h line 139): `base_ns_ + (int64_t)((tsc - base_tsc_) * ns_per_tsc_)`.
This is the value the loop body stores into its local `ns` variable, and it
is the value the design intends `tsc2ns` to return (see `tsc2ns` below for
the shadowing slip in the source). -/
def tsc2nsCalc (s : TSCNS) (tsc : ℤ) : ℤ :=
  s.base_ns_ + truncQ (((tsc - s.base_tsc_ : ℤ) : ℚ) * s.ns_per_tsc_)

/-- `tsc2ns` as actually written (tscns.h lines 131–144).  The function
declares `int64_t ns;` at line 133 and returns `ns` at line 143, but the
loop body at line 139 declares a NEW `int64_t ns` that shadows the outer
one, so the computed conversion value is discarded and the returned value
is the outer variable, which is never assigned.  The indeterminate initial
value of that uninitialized variable is modelled by the explicit argument
`garbage`. -/
def tsc2ns (s : TSCNS) (garbage : ℤ) (tsc : ℤ) : ℤ :=
  let _shadowed := tsc2nsCalc s tsc
  garbage

/-- `saveParam` (tscns.h lines 205–221) as a state transformer: stores
`base_ns_err_` and `next_calibrate_tsc_`, then increments the sequence
counter, stores `base_tsc_`, `base_ns_` and `ns_per_tsc_`, and increments
the sequence counter again.  The two `++seq` increments on the `uint32_t`
counter are modelled by two applications of `u32succ`. -/
def saveParam (s : TSCNS) (base_tsc sys_ns base_ns_err : ℤ) (new_ns_per_tsc : ℚ) :
    TSCNS :=
  { s with
    base_ns_err_ := base_ns_err
    next_calibrate_tsc_ :=
      base_tsc + truncQ (((s.calibrate_interval_ns_ - 1000 : ℤ) : ℚ) / new_ns_per_tsc)
    param_seq_ := u32succ (u32succ s.param_seq_)
    base_tsc_ := base_tsc
    base_ns_ := sys_ns + base_ns_err
    ns_per_tsc_ := new_ns_per_tsc }

/-- `calibrate` (tscns.h lines 100–122).  `now` is the value returned by
the `rdtsc()` call guarding the fast path; `tsc`/`ns` are the sample pair
produced by the `syncTime` call on the slow path.  Line 109 computes
`ns_err = tsc2ns(tsc) - ns` by calling `tsc2ns`; per the shadowing slip
modelled there, the value that call returns is the indeterminate content
of an uninitialized variable, which is therefore an explicit argument
`garbage` of the model, threaded to the `tsc2ns` call. -/
def calibrate (s : TSCNS) (garbage now tsc ns : ℤ) : TSCNS :=
  if now < s.next_calibrate_tsc_ then s
  else
    let ns_err0 := tsc2ns s garbage tsc - ns
    let ns_err1 := if ns_err0 > 1000000 then 1000000 else ns_err0
    let ns_err := if ns_err1 < -1000000 then -1000000 else ns_err1
    let new_ns_per_tsc : ℚ :=
      s.ns_per_tsc_ *
        (1 - ((ns_err + ns_err - s.base_ns_err_ : ℤ) : ℚ) /
          (((tsc - s.base_tsc_ : ℤ) : ℚ) * s.ns_per_tsc_))
    saveParam s tsc ns ns_err new_ns_per_tsc

/-- The clamp performed by the two `if` statements of `calibrate`
(tscns.h lines 110–117), in closed form. -/
def clampErr (raw : ℤ) : ℤ := max (-1000000) (min raw 1000000)

/-- `init` (tscns.h lines 77–97).  `base_tsc`/`base_ns` are the first
synchronized sample pair, `delayed_tsc`/`delayed_ns` the second pair taken
after the busy-wait; the wait loop guarantees the second pair is sampled
only once the wall clock has advanced by at least `init_calibrate_ns`,
which appears as a hypothesis on these arguments in the theorems below. -/
def init (s : TSCNS) (calibrate_interval_ns : ℤ)
    (base_tsc base_ns delayed_tsc delayed_ns : ℤ) : TSCNS :=
  saveParam { s with calibrate_interval_ns_ := calibrate_interval_ns }
    base_tsc base_ns 0
    (((delayed_ns - base_ns : ℤ) : ℚ) / ((delayed_tsc - base_tsc : ℤ) : ℚ))

/-! ## `syncTime` (tscns.h lines 177–203)

`syncTime` fills `tsc[0]`, then for `i = 1..N` reads `ns[i]` and `tsc[i]`
(`N = 3`), so the sample arrays are inputs of the model (`ns 0` is unused).
The selection loop starts with `best = 1` and for `i = 2..N` replaces
`best` by `i` when `tsc[i] - tsc[i-1] < tsc[best] - tsc[best-1]`.
The output tick is `(tsc[best] + tsc[best-1]) >> 1`; on `int64_t` the
arithmetic right shift by one is floor division by two, which is `ℤ`
division by 2. -/

/-- The loop bound `N = 3` of `syncTime`. -/
def syncTimeN : ℕ := 3

/-- The index list `i = 2 .. N` traversed by the selection loop. -/
def syncTimeLoopIdx : List ℕ := (List.range (syncTimeN + 1)).drop 2

/-- The `best` index computed by the selection loop of `syncTime`. -/
def syncTimeBest (tsc : ℕ → ℤ) : ℕ :=
  syncTimeLoopIdx.foldl
    (fun best i => if tsc i - tsc (i - 1) < tsc best - tsc (best - 1) then i else best) 1

/-- The counter delta of the adjacent pair `(tsc[i-1], tsc[i])`. -/
def tscDelta (tsc : ℕ → ℤ) (i : ℕ) : ℤ := tsc i - tsc (i - 1)

/-- `tsc_out = (tsc[best] + tsc[best - 1]) >> 1`. -/
def syncTimeTscOut (tsc : ℕ → ℤ) : ℤ :=
  (tsc (syncTimeBest tsc) + tsc (syncTimeBest tsc - 1)) / 2

/-- `ns_out = ns[best]`. -/
def syncTimeNsOut (tsc ns : ℕ → ℤ) : ℤ := ns (syncTimeBest tsc)

/-! ## The memory-event trace of `saveParam`

For the seqlock claims, the body of `saveParam` (tscns.h lines 205–221) is
linearized as its program-order sequence of stores to snapshot fields and
increments of the sequence counter. -/

/-- The snapshot fields stored by `saveParam`. -/
inductive SnapshotField
  | nsPerTsc | baseTsc | baseNs | baseNsErr | nextCalibrateTsc
  deriving DecidableEq, BEq

/-- A memory event of the commit path: a plain store to a snapshot field,
or an increment of the sequence counter `param_seq_`. -/
inductive CommitEv
  | store (f : SnapshotField)
  | seqIncr
  deriving DecidableEq, BEq

/-- The program-order event trace of `saveParam`: lines 208 and 210 store
`base_ns_err_` and `next_calibrate_tsc_`; line 212 does the first
increment; lines 214–216 store `base_tsc_`, `base_ns_` and `ns_per_tsc_`;
line 220 does the second increment. -/
def saveParamTrace : List CommitEv :=
  [CommitEv.store SnapshotField.baseNsErr,
   CommitEv.store SnapshotField.nextCalibrateTsc,
   CommitEv.seqIncr,
   CommitEv.store SnapshotField.baseTsc,
   CommitEv.store SnapshotField.baseNs,
   CommitEv.store SnapshotField.nsPerTsc,
   CommitEv.seqIncr]

/-- The number of sequence-counter increments that precede event `k` of
the trace.  Starting from a stable (even) counter, event `k` executes with
an odd counter iff this count is odd; a store is "between the two
increments" iff this count equals 1. -/
def incrsBefore (k : ℕ) : ℕ := (saveParamTrace.take k).count CommitEv.seqIncr

/-! ## Concrete states used as inputs of witnesses and counterexamples -/

/-- A stable snapshot with ratio 1 ns/tick and base (0, 0); its
`next_calibrate_tsc_` is 0, so a `calibrate` at any `now ≥ 0` takes the
slow path. -/
def sUnit : TSCNS :=
  { param_seq_ := 0
    ns_per_tsc_ := 1
    base_tsc_ := 0
    base_ns_ := 0
    calibrate_interval_ns_ := 3000000000
    base_ns_err_ := 0
    next_calibrate_tsc_ := 0 }

/-- A state whose sequence counter is at the largest even `uint32_t`
value, one commit away from wraparound. -/
def sWrap : TSCNS :=
  { sUnit with param_seq_ := 2 ^ 32 - 2 }

/-- The counter samples of a `syncTime` run in which the FIRST adjacent
pair is the tightest: deltas are 1, 9, 90. -/
def cexTsc : ℕ → ℤ :=
  fun i => if i = 0 then 0 else if i = 1 then 1 else if i = 2 then 10 else 100

/-- Wall-clock samples for the same run, pairwise distinct so the selected
index is visible in the output. -/
def cexNs : ℕ → ℤ := fun i => (i : ℤ) + 10

/-! ## Helper lemmas -/

/-- Truncation toward zero is monotone. -/
theorem truncQ_mono {a b : ℚ} (h : a ≤ b) : truncQ a ≤ truncQ b := by
  unfold truncQ
  split <;> split
  · exact Int.floor_le_floor h
  · exact absurd (le_trans (by assumption) h) (by assumption)
  · exact le_trans (Int.ceil_le.mpr (by exact_mod_cast le_of_lt (lt_of_not_le (by assumption))))
      (Int.floor_nonneg.mpr (by assumption))
  · exact Int.ceil_le_ceil h

theorem truncQ_zero : truncQ 0 = 0 := by simp [truncQ]

theorem truncQ_intCast (n : ℤ) : truncQ (n : ℚ) = n := by
  unfold truncQ
  split
  · exact Int.floor_intCast n
  · exact Int.ceil_intCast n

/-- Supporting lemma: for a fixed snapshot with positive ratio, the
conversion value computed (and then discarded) by the reader loop of
`tsc2ns` — the intended return value — is monotone in the tick. -/
theorem tsc2ns_formula_mono (s : TSCNS) (t1 t2 : ℤ)
    (hr : 0 < s.ns_per_tsc_) (h : t1 ≤ t2) :
    tsc2nsCalc s t1 ≤ tsc2nsCalc s t2 := by
  unfold tsc2nsCalc
  have hq : ((t1 - s.base_tsc_ : ℤ) : ℚ) * s.ns_per_tsc_ ≤
      ((t2 - s.base_tsc_ : ℤ) : ℚ) * s.ns_per_tsc_ := by
    apply mul_le_mul_of_nonneg_right _ (le_of_lt hr)
    exact_mod_cast sub_le_sub_right h _
  exact add_le_add_left (truncQ_mono hq) _

theorem sUnit_r_pos : 0 < sUnit.ns_per_tsc_ := by norm_num [sUnit]

theorem tsc2ns_formula_mono_witness :
    0 < sUnit.ns_per_tsc_ ∧ (3 : ℤ) ≤ 5 ∧ tsc2nsCalc sUnit 3 ≤ tsc2nsCalc sUnit 5 :=
  ⟨sUnit_r_pos, by decide, tsc2ns_formula_mono sUnit 3 5 sUnit_r_pos (by decide)⟩

/-- C1: `tsc2ns` as written does not return the linear formula: the value
computed at line 139 goes into a shadowing local and is discarded, and the
returned outer `ns` (line 133) is uninitialized, so the result tracks the
indeterminate initial value (`garbage`) of that variable, not the tick. -/
theorem tsc2ns_uninitialized_return :
    tsc2ns sUnit 0 5 = 0 ∧ tsc2ns sUnit 7 5 = 7 ∧
    tsc2nsCalc sUnit 5 = 5 ∧ tsc2ns sUnit 0 5 ≠ tsc2nsCalc sUnit 5 := by
  refine ⟨rfl, rfl, ?_, ?_⟩
  · show (0 : ℤ) + truncQ (((5 - 0 : ℤ) : ℚ) * sUnit.ns_per_tsc_) = 5
    norm_num [sUnit, truncQ]
  · show (0 : ℤ) ≠ tsc2nsCalc sUnit 5
    show (0 : ℤ) ≠ (0 : ℤ) + truncQ (((5 - 0 : ℤ) : ℚ) * sUnit.ns_per_tsc_)
    norm_num [sUnit, truncQ]

/-- C2: monotonicity fails on `tsc2ns` as written.  Each call returns the
indeterminate content of its uninitialized local (the shadowing slip of
C1), and two successive calls may read different contents: under the unit
snapshot (ratio 1 > 0) with ticks 3 ≤ 5, an execution whose two
uninitialized reads yield 7 and then 0 returns 7 then 0 — not monotone.
The intended conversion value does satisfy the claimed monotonicity
(`tsc2ns_formula_mono` above), so the claim is right and the code is the
slip. -/
theorem tsc2ns_mono_violation :
    0 < sUnit.ns_per_tsc_ ∧ (3 : ℤ) ≤ 5 ∧
    tsc2ns sUnit 7 3 = 7 ∧ tsc2ns sUnit 0 5 = 0 ∧
    ¬ tsc2ns sUnit 7 3 ≤ tsc2ns sUnit 0 5 :=
  ⟨sUnit_r_pos, by decide, rfl, rfl, by decide⟩

/-- C5 (counterexample): with counter samples 0, 1, 10, 100 the adjacent
deltas are 1, 9, 90, so the tightest pair is the FIRST one, `(tsc 0, tsc 1)`.
The loop keeps its initial candidate `best = 1` and the outputs come from
that first pair, not from any pair with index in `{2, 3}` as the claim
prescribes (among those, pair 2 is the tightest, which would give
`tick_out = 5` and `ns_out = cexNs 2`). -/
theorem syncTime_pair_selection_cex :
    syncTimeBest cexTsc = 1 ∧
    tscDelta cexTsc 2 < tscDelta cexTsc 3 ∧
    syncTimeTscOut cexTsc = 0 ∧ (cexTsc 1 + cexTsc 2) / 2 = 5 ∧
    syncTimeNsOut cexTsc cexNs = cexNs 1 ∧
    ¬(syncTimeNsOut cexTsc cexNs = cexNs 2 ∨ syncTimeNsOut cexTsc cexNs = cexNs 3) := by
  decide

/-- C5 (amended): `syncTime` takes `N + 1 = 4` counter samples interleaved
with `N = 3` wall-clock samples and selects, among the adjacent counter
pairs `(tsc (i-1), tsc i)` for `i = 1..N` (the first pair being the
initial candidate of the loop), a pair with the smallest counter delta;
it returns `tick_out` equal to the floor-average of the two counter values
of the selected pair (arithmetic shift `>> 1`) and `ns_out` equal to the
wall-clock sample bracketed by that pair. -/
theorem syncTime_pair_selection (tsc ns : ℕ → ℤ) :
    (syncTimeBest tsc = 1 ∨ syncTimeBest tsc = 2 ∨ syncTimeBest tsc = 3) ∧
    tscDelta tsc (syncTimeBest tsc) ≤ tscDelta tsc 1 ∧
    tscDelta tsc (syncTimeBest tsc) ≤ tscDelta tsc 2 ∧
    tscDelta tsc (syncTimeBest tsc) ≤ tscDelta tsc 3 ∧
    syncTimeTscOut tsc = (tsc (syncTimeBest tsc) + tsc (syncTimeBest tsc - 1)) / 2 ∧
    syncTimeNsOut tsc ns = ns (syncTimeBest tsc) := by
  have h0 : syncTimeBest tsc =
      if tsc 3 - tsc 2 <
          tsc (if tsc 2 - tsc 1 < tsc 1 - tsc 0 then 2 else 1) -
          tsc ((if tsc 2 - tsc 1 < tsc 1 - tsc 0 then 2 else 1) - 1) then 3
      else if tsc 2 - tsc 1 < tsc 1 - tsc 0 then 2 else 1 := rfl
  refine ⟨?_, ?_, ?_, ?_, rfl, rfl⟩ <;>
  · rcases lt_or_le (tsc 2 - tsc 1) (tsc 1 - tsc 0) with c1 | c1
    · rcases lt_or_le (tsc 3 - tsc 2) (tsc 2 - tsc 1) with c2 | c2
      · have hb : syncTimeBest tsc = 3 := by rw [h0]; simp [c1, c2]
        rw [hb]
        try simp only [tscDelta]
        try norm_num
        try omega
      · have hb : syncTimeBest tsc = 2 := by rw [h0]; simp [c1, not_lt.mpr c2]
        rw [hb]
        try simp only [tscDelta]
        try norm_num
        try omega
    · rcases lt_or_le (tsc 3 - tsc 2) (tsc 1 - tsc 0) with c2 | c2
      · have hb : syncTimeBest tsc = 3 := by rw [h0]; simp [not_lt.mpr c1, c2]
        rw [hb]
        try simp only [tscDelta]
        try norm_num
        try omega
      · have hb : syncTimeBest tsc = 1 := by rw [h0]; simp [not_lt.mpr c1, not_lt.mpr c2]
        rw [hb]
        try simp only [tscDelta]
        try norm_num
        try omega

/-- The two sequential `if` statements of `calibrate` compute the clamp
`max (-1000000) (min raw 1000000)`. -/
theorem clampErr_ite (raw : ℤ) :
    (if (if raw > 1000000 then 1000000 else raw) < -1000000 then -1000000
     else if raw > 1000000 then 1000000 else raw) = clampErr raw := by
  simp only [clampErr]
  split_ifs <;> omega

/-- The slow path of `calibrate` is a `saveParam` commit whose error is
the clamp of `tsc2ns`'s return value minus the sampled wall clock, and
whose ratio is corrected with that same clamped error. -/
theorem calibrate_slow_eq (s : TSCNS) (garbage now tsc ns : ℤ)
    (hfast : ¬ now < s.next_calibrate_tsc_) :
    calibrate s garbage now tsc ns =
      saveParam s tsc ns (clampErr (tsc2ns s garbage tsc - ns))
        (s.ns_per_tsc_ *
          (1 - ((clampErr (tsc2ns s garbage tsc - ns) + clampErr (tsc2ns s garbage tsc - ns) -
              s.base_ns_err_ : ℤ) : ℚ) /
            (((tsc - s.base_tsc_ : ℤ) : ℚ) * s.ns_per_tsc_))) := by
  simp only [calibrate, hfast, if_false]
  rw [clampErr_ite]

/-- Concrete evaluation of the conversion formula on the unit snapshot. -/
theorem sUnit_calc100 : tsc2nsCalc sUnit 100 = 100 := by
  norm_num [tsc2nsCalc, sUnit, truncQ]

/-- C4: on the slow path of `calibrate`, the error committed as
`base_ns_err_` (and folded into `base_ns_`) is the raw error — the value
returned by the `tsc2ns(tsc)` call (line 109) minus the sampled wall
clock — clamped to `[-1000000, 1000000]`, and it equals exactly
`±1000000` whenever that raw error exceeds the bound.  This holds for
every content `garbage` of the uninitialized variable `tsc2ns` returns
(see C1): the clamping is relative to whatever `tsc2ns` produces. -/
theorem calibrate_error_clamp (s : TSCNS) (garbage now tsc ns : ℤ)
    (hfast : ¬ now < s.next_calibrate_tsc_) :
    (calibrate s garbage now tsc ns).base_ns_err_ = clampErr (tsc2ns s garbage tsc - ns) ∧
    (calibrate s garbage now tsc ns).base_ns_ = ns + clampErr (tsc2ns s garbage tsc - ns) ∧
    -1000000 ≤ clampErr (tsc2ns s garbage tsc - ns) ∧
    clampErr (tsc2ns s garbage tsc - ns) ≤ 1000000 ∧
    (1000000 < tsc2ns s garbage tsc - ns →
      clampErr (tsc2ns s garbage tsc - ns) = 1000000) ∧
    (tsc2ns s garbage tsc - ns < -1000000 →
      clampErr (tsc2ns s garbage tsc - ns) = -1000000) := by
  rw [calibrate_slow_eq s garbage now tsc ns hfast]
  refine ⟨rfl, rfl, ?_, ?_, ?_, ?_⟩ <;>
    (simp only [clampErr, max_def, min_def]; split_ifs <;> omega)

/-- C4 witness: a 10 ms wall-clock jump (raw error 10,000,000 ns, with
the uninitialized read at its intended value 100) commits only the
clamped error. -/
theorem calibrate_error_clamp_witness :
    ¬ (0 : ℤ) < sUnit.next_calibrate_tsc_ ∧
    1000000 < tsc2ns sUnit 100 100 - (100 - 10000000) ∧
    (calibrate sUnit 100 0 100 (100 - 10000000)).base_ns_err_ =
      clampErr (tsc2ns sUnit 100 100 - (100 - 10000000)) :=
  ⟨by decide, by decide,
    (calibrate_error_clamp sUnit 100 0 100 (100 - 10000000) (by decide)).1⟩

/-- C6: on the slow path of `calibrate`, the committed ratio is exactly
`ns_per_tsc_ * (1 - (2*error - previous_error) / ((tsc - base_tsc_) * ns_per_tsc_))`,
where `error` is the clamped error (the clamp of `tsc2ns`'s return value
minus the sampled wall clock — see C1 for that return value being an
uninitialized read, here the argument `garbage`) and `previous_error` the
stored `base_ns_err_`. -/
theorem calibrate_ratio_update (s : TSCNS) (garbage now tsc ns : ℤ)
    (hfast : ¬ now < s.next_calibrate_tsc_) :
    (calibrate s garbage now tsc ns).ns_per_tsc_ =
      s.ns_per_tsc_ *
        (1 - ((2 * clampErr (tsc2ns s garbage tsc - ns) - s.base_ns_err_ : ℤ) : ℚ) /
          (((tsc - s.base_tsc_ : ℤ) : ℚ) * s.ns_per_tsc_)) := by
  rw [calibrate_slow_eq s garbage now tsc ns hfast, two_mul]
  rfl

/-- C6 witness at a concrete slow-path call. -/
theorem calibrate_ratio_update_witness :
    ¬ (0 : ℤ) < sUnit.next_calibrate_tsc_ ∧
    (calibrate sUnit 100 0 100 90).ns_per_tsc_ =
      sUnit.ns_per_tsc_ *
        (1 - ((2 * clampErr (tsc2ns sUnit 100 100 - 90) - sUnit.base_ns_err_ : ℤ) : ℚ) /
          (((100 - sUnit.base_tsc_ : ℤ) : ℚ) * sUnit.ns_per_tsc_)) :=
  ⟨by decide, calibrate_ratio_update sUnit 100 0 100 90 (by decide)⟩

/-- C7: every slow-path `calibrate` commits `base_tsc_` equal to the
sampled counter, `base_ns_` equal to the sampled wall clock plus the
clamped error, `base_ns_err_` equal to the clamped error, and
`next_calibrate_tsc_` recomputed from the new base, the stored calibration
interval and the new ratio.  The error here is computed from `tsc2ns`'s
return value (the uninitialized read `garbage`, see C1), exactly as the
source does at line 109. -/
theorem calibrate_commit_fields (s : TSCNS) (garbage now tsc ns : ℤ)
    (hfast : ¬ now < s.next_calibrate_tsc_) :
    (calibrate s garbage now tsc ns).base_tsc_ = tsc ∧
    (calibrate s garbage now tsc ns).base_ns_ =
      ns + clampErr (tsc2ns s garbage tsc - ns) ∧
    (calibrate s garbage now tsc ns).base_ns_err_ =
      clampErr (tsc2ns s garbage tsc - ns) ∧
    (calibrate s garbage now tsc ns).next_calibrate_tsc_ =
      tsc + truncQ (((s.calibrate_interval_ns_ - 1000 : ℤ) : ℚ) /
        (calibrate s garbage now tsc ns).ns_per_tsc_) ∧
    (calibrate s garbage now tsc ns).calibrate_interval_ns_ = s.calibrate_interval_ns_ := by
  rw [calibrate_slow_eq s garbage now tsc ns hfast]
  exact ⟨rfl, rfl, rfl, rfl, rfl⟩

/-- C7 witness at a concrete slow-path call. -/
theorem calibrate_commit_fields_witness :
    ¬ (0 : ℤ) < sUnit.next_calibrate_tsc_ ∧
    (calibrate sUnit 100 0 100 90).base_tsc_ = 100 ∧
    (calibrate sUnit 100 0 100 90).base_ns_ = 90 + clampErr (tsc2ns sUnit 100 100 - 90) :=
  ⟨by decide, (calibrate_commit_fields sUnit 100 0 100 90 (by decide)).1,
    (calibrate_commit_fields sUnit 100 0 100 90 (by decide)).2.1⟩

/-- C3 (counterexample): a slow-path recalibration CAN move the mapping's
nanosecond values backwards at ticks after the commit point.  The
uninitialized read inside the `tsc2ns(tsc)` call at line 109 is
instantiated to 100 — a possible content of that variable, and exactly
the value the intended conversion would yield at tick 100, i.e. the most
benign execution.  From the unit snapshot (base (0,0), ratio 1), the
calibration sample `(tsc, ns) = (100, 90)` then finds the wall clock
10 ns behind the prediction; the commit keeps continuity at the commit
tick (new mapping value 100 there) but lowers the ratio to 4/5, so at
tick 200 — at/after the new `base_tsc_ = 100` — the new snapshot's
mapping yields 180 while the old snapshot's mapping yields 200. -/
theorem calibrate_backward_jump_cex :
    (calibrate sUnit 100 0 100 90).base_tsc_ = 100 ∧
    tsc2nsCalc (calibrate sUnit 100 0 100 90) 200 = 180 ∧
    tsc2nsCalc sUnit 200 = 200 ∧
    tsc2nsCalc (calibrate sUnit 100 0 100 90) 200 < tsc2nsCalc sUnit 200 := by
  have h : calibrate sUnit 100 0 100 90 =
      saveParam sUnit 100 90 (clampErr (tsc2ns sUnit 100 100 - 90))
        (sUnit.ns_per_tsc_ *
          (1 - ((clampErr (tsc2ns sUnit 100 100 - 90) + clampErr (tsc2ns sUnit 100 100 - 90) -
              sUnit.base_ns_err_ : ℤ) : ℚ) /
            (((100 - sUnit.base_tsc_ : ℤ) : ℚ) * sUnit.ns_per_tsc_))) :=
    calibrate_slow_eq sUnit 100 0 100 90 (by decide)
  rw [h]
  have hc : clampErr (tsc2ns sUnit 100 100 - 90) = 10 := by
    simp only [tsc2ns, clampErr, max_def, min_def]
    norm_num
  rw [hc]
  norm_num [saveParam, sUnit, tsc2nsCalc, truncQ]

/-- C3 (amended): when the `tsc2ns(tsc)` call of a slow-path `calibrate`
returns the current mapping's value at the sampled tick (the intended
behavior — its actual return is the indeterminate uninitialized read, see
C1) and the raw error lies within the clamp bounds, the committed
snapshot keeps the nanosecond mapping continuous at the commit point: the
new mapping's value at the new `base_tsc_` equals the previous mapping's
value at that tick.  (For ticks strictly after the new base the new
mapping can fall behind the old one whenever the ratio is corrected
downward, as the counterexample shows, so the guarantee holds at the
commit tick, not at every later tick.) -/
theorem calibrate_continuity_at_commit (s : TSCNS) (garbage now tsc ns : ℤ)
    (hfast : ¬ now < s.next_calibrate_tsc_)
    (hg : tsc2ns s garbage tsc = tsc2nsCalc s tsc)
    (hlo : -1000000 ≤ tsc2nsCalc s tsc - ns)
    (hhi : tsc2nsCalc s tsc - ns ≤ 1000000) :
    tsc2nsCalc (calibrate s garbage now tsc ns) tsc = tsc2nsCalc s tsc := by
  have hclamp : clampErr (tsc2ns s garbage tsc - ns) = tsc2nsCalc s tsc - ns := by
    rw [hg]
    simp only [clampErr, max_def, min_def]
    split_ifs <;> omega
  rw [calibrate_slow_eq s garbage now tsc ns hfast, hclamp]
  show ns + (tsc2nsCalc s tsc - ns) +
      truncQ (((tsc - tsc : ℤ) : ℚ) * _) = tsc2nsCalc s tsc
  rw [sub_self]
  rw [Int.cast_zero, zero_mul, truncQ_zero]
  omega

theorem calibrate_continuity_at_commit_witness :
    ¬ (0 : ℤ) < sUnit.next_calibrate_tsc_ ∧
    tsc2ns sUnit 100 100 = tsc2nsCalc sUnit 100 ∧
    -1000000 ≤ tsc2nsCalc sUnit 100 - 90 ∧
    tsc2nsCalc sUnit 100 - 90 ≤ 1000000 ∧
    tsc2nsCalc (calibrate sUnit 100 0 100 90) 100 = tsc2nsCalc sUnit 100 :=
  ⟨by decide, by simp [tsc2ns, sUnit_calc100], by simp [sUnit_calc100],
    by simp [sUnit_calc100],
    calibrate_continuity_at_commit sUnit 100 0 100 90 (by decide)
      (by simp [tsc2ns, sUnit_calc100]) (by simp [sUnit_calc100])
      (by simp [sUnit_calc100])⟩

/-- C8: `init` commits the first synchronized pair as the base, the ratio
`(ns2 - ns1) / (tick2 - tick1)` from the two pairs, and error 0; the
hypothesis records that the wait loop releases only once the wall clock
has advanced by at least `init_calibrate_ns` past the first sample. -/
theorem init_commit_fields (s : TSCNS)
    (init_calibrate_ns calibrate_interval_ns base_tsc base_ns delayed_tsc delayed_ns : ℤ)
    (_hwait : base_ns + init_calibrate_ns ≤ delayed_ns) :
    (init s calibrate_interval_ns base_tsc base_ns delayed_tsc delayed_ns).base_tsc_ =
      base_tsc ∧
    (init s calibrate_interval_ns base_tsc base_ns delayed_tsc delayed_ns).base_ns_ =
      base_ns ∧
    (init s calibrate_interval_ns base_tsc base_ns delayed_tsc delayed_ns).ns_per_tsc_ =
      ((delayed_ns - base_ns : ℤ) : ℚ) / ((delayed_tsc - base_tsc : ℤ) : ℚ) ∧
    (init s calibrate_interval_ns base_tsc base_ns delayed_tsc delayed_ns).base_ns_err_ =
      0 ∧
    (init s calibrate_interval_ns base_tsc base_ns delayed_tsc delayed_ns).calibrate_interval_ns_ =
      calibrate_interval_ns := by
  refine ⟨rfl, ?_, rfl, rfl, rfl⟩
  show base_ns + (0 : ℤ) = base_ns
  exact add_zero base_ns

theorem init_commit_fields_witness :
    (1000 : ℤ) + 20000000 ≤ 20002000 ∧
    (init sUnit 3000000000 500 1000 700 20002000).base_tsc_ = 500 ∧
    (init sUnit 3000000000 500 1000 700 20002000).base_ns_ = 1000 ∧
    (init sUnit 3000000000 500 1000 700 20002000).ns_per_tsc_ =
      ((20002000 - 1000 : ℤ) : ℚ) / ((700 - 500 : ℤ) : ℚ) ∧
    (init sUnit 3000000000 500 1000 700 20002000).base_ns_err_ = 0 :=
  ⟨by decide,
    (init_commit_fields sUnit 20000000 3000000000 500 1000 700 20002000 (by decide)).1,
    (init_commit_fields sUnit 20000000 3000000000 500 1000 700 20002000 (by decide)).2.1,
    (init_commit_fields sUnit 20000000 3000000000 500 1000 700 20002000 (by decide)).2.2.1,
    (init_commit_fields sUnit 20000000 3000000000 500 1000 700 20002000 (by decide)).2.2.2.1⟩

/-- C9 (counterexample): the first two events of the `saveParam` body are
plain stores to the snapshot fields `base_ns_err_` and
`next_calibrate_tsc_`, executed BEFORE the first sequence-counter
increment — i.e. while the counter is still even (stable). -/
theorem saveParam_store_outside_window_cex :
    saveParamTrace[0]? = some (CommitEv.store SnapshotField.baseNsErr) ∧
    incrsBefore 0 = 0 ∧
    saveParamTrace[1]? = some (CommitEv.store SnapshotField.nextCalibrateTsc) ∧
    incrsBefore 1 = 0 := by decide

/-- C9 (amended): in the `saveParam` commit, exactly the three fields read
by the `tsc2ns` reader loop (`base_tsc_`, `base_ns_`, `ns_per_tsc_`) are
stored between the two sequence-counter increments; the stores to
`base_ns_err_` and `next_calibrate_tsc_` happen before the first
increment, while the counter is still even. -/
theorem saveParam_store_window (k : ℕ) (f : SnapshotField)
    (h : saveParamTrace[k]? = some (CommitEv.store f)) :
    (incrsBefore k = 1 ↔
      (f = SnapshotField.baseTsc ∨ f = SnapshotField.baseNs ∨
        f = SnapshotField.nsPerTsc)) ∧
    (incrsBefore k = 0 ↔
      (f = SnapshotField.baseNsErr ∨ f = SnapshotField.nextCalibrateTsc)) := by
  have hk : k < 7 := by
    by_contra hk
    push_neg at hk
    have hnone : saveParamTrace[k]? = none := by
      apply List.getElem?_eq_none
      simpa [saveParamTrace] using hk
    rw [hnone] at h
    exact Option.noConfusion h
  interval_cases k <;> cases f <;> revert h <;> decide

theorem saveParam_store_window_witness :
    saveParamTrace[3]? = some (CommitEv.store SnapshotField.baseTsc) ∧
    ((incrsBefore 3 = 1 ↔
      (SnapshotField.baseTsc = SnapshotField.baseTsc ∨
        SnapshotField.baseTsc = SnapshotField.baseNs ∨
        SnapshotField.baseTsc = SnapshotField.nsPerTsc)) ∧
    (incrsBefore 3 = 0 ↔
      (SnapshotField.baseTsc = SnapshotField.baseNsErr ∨
        SnapshotField.baseTsc = SnapshotField.nextCalibrateTsc))) :=
  ⟨by decide, saveParam_store_window 3 SnapshotField.baseTsc (by decide)⟩

/-- C10 (counterexample): the `uint32_t` sequence counter wraps.  From the
largest even value `2^32 - 2`, one `saveParam` commit leaves the counter at
0: it has not grown by 2 in the integers and it has decreased. -/
theorem saveParam_seq_wraparound_cex :
    sWrap.param_seq_ = 2 ^ 32 - 2 ∧
    (saveParam sWrap 0 0 0 1).param_seq_ = 0 ∧
    (saveParam sWrap 0 0 0 1).param_seq_ < sWrap.param_seq_ ∧
    (saveParam sWrap 0 0 0 1).param_seq_ ≠ sWrap.param_seq_ + 2 := by
  refine ⟨rfl, ?_, ?_, ?_⟩ <;> decide

/-- C10 (amended): every `saveParam` commit advances the sequence counter
by exactly 2 modulo `2^32`; evenness (stability when no commit is in
progress) is preserved, and the counter value increases except at the
wraparound commit from `2^32 - 2`. -/
theorem saveParam_seq_plus_two (s : TSCNS) (base_tsc sys_ns base_ns_err : ℤ)
    (new_ns_per_tsc : ℚ) (h : s.param_seq_ < 2 ^ 32) :
    (saveParam s base_tsc sys_ns base_ns_err new_ns_per_tsc).param_seq_ =
      (s.param_seq_ + 2) % 2 ^ 32 ∧
    (Even s.param_seq_ →
      Even (saveParam s base_tsc sys_ns base_ns_err new_ns_per_tsc).param_seq_) ∧
    (s.param_seq_ + 2 < 2 ^ 32 →
      (saveParam s base_tsc sys_ns base_ns_err new_ns_per_tsc).param_seq_ =
        s.param_seq_ + 2) := by
  have hp : (saveParam s base_tsc sys_ns base_ns_err new_ns_per_tsc).param_seq_ =
      u32succ (u32succ s.param_seq_) := rfl
  rw [hp]
  simp only [u32succ, Nat.even_iff]
  exact ⟨by omega, fun he => by omega, fun hlt => by omega⟩

theorem saveParam_seq_plus_two_witness :
    sUnit.param_seq_ < 2 ^ 32 ∧
    (saveParam sUnit 0 0 0 1).param_seq_ = (sUnit.param_seq_ + 2) % 2 ^ 32 :=
  ⟨by decide, (saveParam_seq_plus_two sUnit 0 0 0 1 (by decide)).1⟩

theorem syncTime_pair_selection_witness :
    (syncTimeBest cexTsc = 1 ∨ syncTimeBest cexTsc = 2 ∨ syncTimeBest cexTsc = 3) ∧
    tscDelta cexTsc (syncTimeBest cexTsc) ≤ tscDelta cexTsc 1 ∧
    tscDelta cexTsc (syncTimeBest cexTsc) ≤ tscDelta cexTsc 2 ∧
    tscDelta cexTsc (syncTimeBest cexTsc) ≤ tscDelta cexTsc 3 ∧
    syncTimeTscOut cexTsc =
      (cexTsc (syncTimeBest cexTsc) + cexTsc (syncTimeBest cexTsc - 1)) / 2 ∧
    syncTimeNsOut cexTsc cexNs = cexNs (syncTimeBest cexTsc) :=
  syncTime_pair_selection cexTsc cexNs
